import Mathlib

/-!
Shallow embedding of the beach-time tide engine (TideService) and proofs
about its spec claims.

The numeric heights of the TypeScript source are IEEE floats; the embedding
models them as elements of a linear ordered field (instantiated at ℚ for
concrete evaluation and at ℝ for the harmonic synthesizer, whose cosine terms
are real-valued).  Times are millisecond epoch integers, modelled as Int.
Math.random() is modelled as an explicit noise stream passed to the sampler,
and the runtime's local-timezone offset (used by Date#getDay / Date#getHours)
is an explicit integer parameter.
-/

/-- Polarity of a detected extreme, the source's two string literals
for the field TideExtreme.type. -/
inductive TideKind where
  | high
  | low
deriving DecidableEq, Repr

/-- The source's TidePoint: time (ms epoch), height (meters). -/
structure TidePoint (α : Type) where
  time : Int
  height : α
deriving DecidableEq, Repr

/-- The source's TideExtreme: time, height, and high/low polarity. -/
structure TideExtreme (α : Type) where
  time : Int
  height : α
  type : TideKind
deriving DecidableEq, Repr

/-- The source's LocationConfig.  Purely descriptive data. -/
structure LocationConfig where
  name : String
  latitude : ℚ
  longitude : ℚ
  timezone : Option String := none
  country : Option String := none
  region : Option String := none

/-- The source's HarmonicConstituent: name, speed (deg/hour),
amplitude (m), phase (deg). -/
structure Constituent where
  name : String
  speed : ℝ
  amplitude : ℝ
  phase : ℝ

/-- A recommendation from getBestFridayVisitTimes: a time and a reason text. -/
structure Recommendation where
  time : Int
  reason : String
deriving DecidableEq, Repr

/-- Result record of getTideData. -/
structure TideData where
  points : List (TidePoint ℝ)
  extremes : List (TideExtreme ℝ)

/-- REFERENCE_TIME of the source, new Date(2025, 0, 1).getTime(); the value
here is midnight 2025-01-01 UTC in ms (the runtime's zone offset only shifts
the phase of the synthesized signal and is immaterial to every claim). -/
def REFERENCE_TIME : Int := 1735689600000

/-- The source's getDefaultConstituents table. -/
noncomputable def getDefaultConstituents : List Constituent :=
  [ ⟨"M2", 28.984, 0.28, 220⟩,
    ⟨"S2", 30.000, 0.12, 250⟩,
    ⟨"N2", 28.440, 0.06, 200⟩,
    ⟨"K1", 15.041, 0.08, 150⟩,
    ⟨"O1", 13.943, 0.05, 130⟩,
    ⟨"Z0", 0.000, 0.50, 0⟩ ]

/-- Accumulation loop of calculateTideHeight over the constituent list:
a constituent named "Z0" adds its amplitude and continues, any other adds
amplitude * cos((speed * hoursElapsed + phase) * π/180). -/
noncomputable def heightSum (constituents : List Constituent) (hoursElapsed : ℝ) : ℝ :=
  constituents.foldl (fun height constituent =>
    if constituent.name = "Z0" then
      height + constituent.amplitude
    else
      height + constituent.amplitude *
        Real.cos ((constituent.speed * hoursElapsed + constituent.phase) * (Real.pi / 180))) 0

/-- The source's calculateTideHeight; rand stands for the Math.random()
sample in [0, 1) drawn during this call. -/
noncomputable def calculateTideHeight (time : Int) (constituents : List Constituent)
    (rand : ℝ) : ℝ :=
  let hoursElapsed : ℝ := ((time - REFERENCE_TIME : Int) : ℝ) / (60 * 60 * 1000)
  heightSum constituents hoursElapsed + (rand * 0.1 - 0.05)

section Pipeline

variable {α : Type} [LinearOrderedField α]

/-- Height of points[j]; all call sites index in range, the default 0 is
never read. -/
def heightAt (points : List (TidePoint α)) (j : Nat) : α :=
  ((points[j]?).map (fun p => p.height)).getD 0

/-- Time of points[j]; all call sites index in range, the default 0 is
never read. -/
def timeAt (points : List (TidePoint α)) (j : Nat) : Int :=
  ((points[j]?).map (fun p => p.time)).getD 0

/-- The source's smoothData: moving average with half width ⌊windowSize/2⌋;
Nat subtraction in start is exactly the source's Math.max(0, i - ⌊w/2⌋). -/
def smoothData (points : List (TidePoint α)) (windowSize : Nat) : List (TidePoint α) :=
  (List.range points.length).map (fun i =>
    let start := i - windowSize / 2
    let stop := min (points.length - 1) (i + windowSize / 2)
    let idxs := List.range' start (stop + 1 - start)
    { time := timeAt points i,
      height := (idxs.map (fun j => heightAt points j)).sum / (idxs.length : α) })

/-- The isHigh flag of the candidate scan at index i: every other point of
the window [i-6, i+6] is strictly below points[i]. -/
def isHighAt (sp : List (TidePoint α)) (i : Nat) : Bool :=
  (List.range' (i - 6) 13).all (fun j => j == i || decide (heightAt sp j < heightAt sp i))

/-- The isLow flag of the candidate scan at index i: every other point of
the window [i-6, i+6] is strictly above points[i]. -/
def isLowAt (sp : List (TidePoint α)) (i : Nat) : Bool :=
  (List.range' (i - 6) 13).all (fun j => j == i || decide (heightAt sp i < heightAt sp j))

/-- Candidate pushed by the scan at index i, if any. -/
def candidateAt (sp : List (TidePoint α)) (i : Nat) : Option (TideExtreme α) :=
  if isHighAt sp i && !isLowAt sp i then
    some { time := timeAt sp i, height := heightAt sp i, type := TideKind.high }
  else if isLowAt sp i && !isHighAt sp i then
    some { time := timeAt sp i, height := heightAt sp i, type := TideKind.low }
  else
    none

/-- The candidate scan loop: indices 6 ≤ i < length - 6. -/
def findCandidates (sp : List (TidePoint α)) : List (TideExtreme α) :=
  (List.range' 6 (sp.length - 12)).filterMap (fun i => candidateAt sp i)

/-- Sequential merge/filter loop of findExtremes over the candidates, with
the accumulated extremes array and the lastExtreme variable.  Thresholds are
4 h = 14400000 ms and 0.1 m. -/
def mergeLoop : List (TideExtreme α) → List (TideExtreme α) → Option (TideExtreme α) →
    List (TideExtreme α)
  | [], extremes, _ => extremes
  | candidate :: rest, extremes, none =>
      mergeLoop rest (extremes ++ [candidate]) (some candidate)
  | candidate :: rest, extremes, some lastExtreme =>
      let timeDiff := candidate.time - lastExtreme.time
      let heightDiff := |candidate.height - lastExtreme.height|
      if 14400000 ≤ timeDiff ∧ (1/10 : α) ≤ heightDiff then
        if candidate.type ≠ lastExtreme.type then
          mergeLoop rest (extremes ++ [candidate]) (some candidate)
        else
          if (candidate.type = TideKind.high ∧ lastExtreme.height < candidate.height) ∨
             (candidate.type = TideKind.low ∧ candidate.height < lastExtreme.height) then
            mergeLoop rest (extremes.dropLast ++ [candidate]) (some candidate)
          else
            mergeLoop rest extremes (some lastExtreme)
      else
        mergeLoop rest extremes (some lastExtreme)

/-- The source's findExtremes: guard on < 10 points, smooth with window 3,
scan for candidates, then merge/filter them. -/
def findExtremes (points : List (TidePoint α)) : List (TideExtreme α) :=
  if points.length < 10 then []
  else mergeLoop (findCandidates (smoothData points 3)) [] none

/-- JS stable sort by the comparator (a, b) => a.time - b.time. -/
def sortByTime (extremes : List (TideExtreme α)) : List (TideExtreme α) :=
  extremes.mergeSort (fun a b => decide (a.time ≤ b.time))

/-- Inner pair loop of isDangerousTide over the sorted extremes: some
adjacent pair with |Δheight| > 0.4 and Δtime < 14400000 ms. -/
def hasRapidSwing : List (TideExtreme α) → Bool
  | a :: b :: rest =>
      if (2/5 : α) < |b.height - a.height| ∧ b.time - a.time < 14400000 then true
      else hasRapidSwing (b :: rest)
  | _ => false

/-- The source's isDangerousTide: height above 0.85, else a rapid swing
between adjacent sorted extremes (only examined when at least 2 exist). -/
def isDangerousTide (height : α) (extremes : List (TideExtreme α)) : Bool :=
  if (17/20 : α) < height then true
  else if 2 ≤ extremes.length then hasRapidSwing (sortByTime extremes)
  else false

/-- Date#getDay of an epoch-ms instant under a fixed local-zone offset tz
(ms east of UTC): 0 = Sunday, ..., 5 = Friday, 6 = Saturday. -/
def jsGetDay (tz t : Int) : Int :=
  ((t + tz).fdiv 86400000 + 4).emod 7

/-- Date#getHours of an epoch-ms instant under a fixed local-zone offset tz. -/
def jsGetHours (tz t : Int) : Int :=
  ((t + tz).fdiv 3600000).emod 24

/-- Recommendations pushed by one iteration of the getBestFridayVisitTimes
loop for one (already Friday-filtered, sorted) extreme. -/
def recsFor (tz : Int) (extreme : TideExtreme α) : List Recommendation :=
  (if extreme.type = TideKind.low ∧
      6 ≤ jsGetHours tz extreme.time ∧ jsGetHours tz extreme.time ≤ 18 then
    [{ time := extreme.time,
       reason := "Low tide during daylight hours - ideal for beach activities" }]
  else []) ++
  (if extreme.type = TideKind.low ∧
      7 ≤ jsGetHours tz (extreme.time + 3600000) ∧
      jsGetHours tz (extreme.time + 3600000) ≤ 17 then
    [{ time := extreme.time + 3600000,
       reason := "Gradually rising tide - good for swimming" }]
  else [])

/-- The source's getBestFridayVisitTimes: keep Friday extremes, sort by time,
then push the per-extreme recommendations in order. -/
def getBestFridayVisitTimes (tz : Int) (extremes : List (TideExtreme α)) :
    List Recommendation :=
  (sortByTime (extremes.filter (fun e => jsGetDay tz e.time == 5))).flatMap
    (fun e => recsFor tz e)

end Pipeline

/-- Sampling loop of getTideData: walk from t to endTime inclusive in steps
of 30 min = 1800000 ms, synthesizing each height with the k-th noise sample
(one Math.random() call per point, in loop order). -/
noncomputable def samplePoints (t endTime : Int) (constituents : List Constituent)
    (noise : Nat → ℝ) (k : Nat) : List (TidePoint ℝ) :=
  if t ≤ endTime then
    { time := t, height := calculateTideHeight t constituents (noise k) } ::
      samplePoints (t + 1800000) endTime constituents noise (k + 1)
  else []
termination_by (endTime + 1800000 - t).toNat
decreasing_by
  simp_wf
  omega

/-- The source's getTideData: sample the window [startTime, startTime +
days*86400000] and detect extremes.  startTime stands for Date.now() and
noise for the stream of Math.random() samples. -/
noncomputable def getTideData (location : LocationConfig) (days : Int)
    (constituents : Option (List Constituent)) (startTime : Int)
    (noise : Nat → ℝ) : TideData :=
  let endTime := startTime + days * 86400000
  let activeConstituents := constituents.getD getDefaultConstituents
  let points := samplePoints startTime endTime activeConstituents noise 0
  { points := points, extremes := findExtremes points }

/-- Per-constituent contribution of the accumulation loop of
calculateTideHeight, read off the source: the branch is keyed on the
constituent NAME being "Z0", not on its speed being zero. -/
noncomputable def constituentTerm (hoursElapsed : ℝ) (c : Constituent) : ℝ :=
  if c.name = "Z0" then c.amplitude
  else c.amplitude * Real.cos ((c.speed * hoursElapsed + c.phase) * (Real.pi / 180))

section SpecSide

variable {α : Type} [LinearOrderedField α]

/-- Spec-side description of the smoothed height (for the refinement claim
about smoothData): the arithmetic mean of the input heights over the
boundary-clamped window of indices [i - ⌊w/2⌋, min (n-1) (i + ⌊w/2⌋)],
written as a set-indexed mean rather than as the source's running loop. -/
def specMeanHeight (points : List (TidePoint α)) (windowSize : Nat) (i : Nat) : α :=
  let lo := i - windowSize / 2
  let hi := min (points.length - 1) (i + windowSize / 2)
  (∑ j in Finset.Icc lo hi, heightAt points j) / ((Finset.Icc lo hi).card : α)

end SpecSide

/-! ### Concrete inputs used by counterexamples and witnesses -/

/-- Raw heights of the C1 counterexample input: a descending shelf with a
local low at index 6, a moderate local high at index 19, and a stronger
local high at index 32. -/
def heightsC1 : List ℚ :=
  [1.6, 1.5, 1.4, 1.3, 1.2, 1.1, 1.0, 1.1, 1.15, 1.15, 1.15, 1.15, 1.15,
   0.95, 0.55, 0.55, 0.55, 0.55, 0.85, 1.0, 0.85, 0.7, 0.55, 0.55, 0.55,
   0.55, 0.55, 0.55, 0.7, 0.8, 0.9, 1.0, 1.25, 1.0, 0.9, 0.8, 0.7, 0.6, 0.5]

/-- The C1 counterexample input, sampled hourly. -/
def ptsC1 : List (TidePoint ℚ) :=
  heightsC1.enum.map (fun p => { time := (p.1 : Int) * 3600000, height := p.2 })

/-- Input for the C7 counterexample: a single spike at index 4. -/
def ptsC7 : List (TidePoint ℚ) :=
  [⟨0, 0⟩, ⟨1, 0⟩, ⟨2, 0⟩, ⟨3, 0⟩, ⟨4, 60⟩, ⟨5, 0⟩, ⟨6, 0⟩, ⟨7, 0⟩, ⟨8, 0⟩]

/-- A concrete location used by witnesses. -/
def someLocation : LocationConfig :=
  { name := "Beach", latitude := 2, longitude := 45 }

section MergeInvariant

variable {α : Type} [LinearOrderedField α]

/-- The adjacency invariant the merge loop maintains on the accumulated
extremes: a 4-hour time gap and alternating polarity. -/
def extOk (a b : TideExtreme α) : Prop :=
  a.time + 14400000 ≤ b.time ∧ a.type ≠ b.type

lemma chain'_concat_of (acc : List (TideExtreme α)) (l c : TideExtreme α)
    (hlast : acc.getLast? = some l) (hacc : List.Chain' extOk acc)
    (h : extOk l c) : List.Chain' extOk (acc ++ [c]) := by
  rw [List.chain'_append]
  refine ⟨hacc, List.chain'_singleton c, ?_⟩
  intro x hx y hy
  simp only [List.head?_cons, Option.mem_def, Option.some.injEq] at hy
  rw [hlast] at hx
  simp only [Option.mem_def, Option.some.injEq] at hx
  subst hx; subst hy
  exact h

lemma chain'_replace_last (acc : List (TideExtreme α)) (l c : TideExtreme α)
    (hlast : acc.getLast? = some l) (hacc : List.Chain' extOk acc)
    (htime : l.time + 14400000 ≤ c.time) (htype : c.type = l.type) :
    List.Chain' extOk (acc.dropLast ++ [c]) := by
  have hne : acc ≠ [] := by
    intro h; subst h; simp at hlast
  have hgl : acc.getLast hne = l := by
    have := List.getLast?_eq_getLast acc hne
    rw [hlast] at this
    exact (Option.some.injEq _ _).mp this.symm
  have heq : acc.dropLast ++ [l] = acc := by
    rw [← hgl]; exact List.dropLast_append_getLast hne
  rw [← heq] at hacc
  rw [List.chain'_append] at hacc
  obtain ⟨h1, _, h3⟩ := hacc
  rw [List.chain'_append]
  refine ⟨h1, List.chain'_singleton c, ?_⟩
  intro x hx y hy
  simp only [List.head?_cons, Option.mem_def, Option.some.injEq] at hy
  subst hy
  have hxl : extOk x l := h3 x hx l (by simp)
  refine ⟨by have := hxl.1; omega, ?_⟩
  rw [htype]
  exact hxl.2

lemma mergeLoop_chain (cands : List (TideExtreme α)) :
    ∀ (acc : List (TideExtreme α)) (last : Option (TideExtreme α)),
      acc.getLast? = last → List.Chain' extOk acc →
      List.Chain' extOk (mergeLoop cands acc last) := by
  induction cands with
  | nil =>
      intro acc last _ hacc
      cases last <;> simpa [mergeLoop] using hacc
  | cons c rest ih =>
      intro acc last hlast hacc
      cases last with
      | none =>
          have hacc0 : acc = [] := by
            cases acc with
            | nil => rfl
            | cons a as => simp [List.getLast?_concat] at hlast
          subst hacc0
          simp only [mergeLoop]
          exact ih [c] (some c) rfl (List.chain'_singleton c)
      | some l =>
          simp only [mergeLoop]
          split_ifs with hgap htype hmore
          · -- alternating accept: append
            exact ih (acc ++ [c]) (some c) (List.getLast?_concat acc)
              (chain'_concat_of acc l c hlast hacc
                ⟨by have := hgap.1; omega, fun h => htype h.symm⟩)
          · -- same kind, more extreme: replace the last accepted entry
            exact ih (acc.dropLast ++ [c]) (some c) (List.getLast?_concat _)
              (chain'_replace_last acc l c hlast hacc (by have := hgap.1; omega)
                (by push_neg at htype; exact htype))
          · -- same kind, not more extreme: drop the candidate
            exact ih acc (some l) hlast hacc
          · -- gap test failed: reject the candidate
            exact ih acc (some l) hlast hacc

lemma findExtremes_chain (points : List (TidePoint α)) :
    List.Chain' extOk (findExtremes points) := by
  unfold findExtremes
  split_ifs
  · exact List.chain'_nil
  · exact mergeLoop_chain _ [] none rfl List.chain'_nil

end MergeInvariant

section MainClaims

variable {α : Type} [LinearOrderedField α]

/-- Claim C5: for every input points list, the extrema list returned by
findExtremes is sorted by time in strictly ascending order, and no two
consecutive entries have the same kind (High/Low alternate). -/
theorem c5_sorted_alternating (points : List (TidePoint α)) :
    (findExtremes points).Pairwise (fun a b => a.time < b.time) ∧
    List.Chain' (fun a b : TideExtreme α => a.type ≠ b.type) (findExtremes points) := by
  have hchain := findExtremes_chain points
  constructor
  · have hgap : List.Chain' (fun a b : TideExtreme α => a.time + 14400000 ≤ b.time)
        (findExtremes points) := hchain.imp (fun _ _ h => h.1)
    haveI : IsTrans (TideExtreme α) (fun a b : TideExtreme α => a.time + 14400000 ≤ b.time) :=
      ⟨fun _ _ _ hab hbc => by omega⟩
    exact (List.chain'_iff_pairwise.mp hgap).imp (fun h => by omega)
  · exact hchain.imp (fun _ _ h => h.2)

/-- Claim C1 (counterexample): on this concrete 39-point input the final
extrema list of findExtremes is a Low at 16/15 m followed by a High at
13/12 m: the replace-if-more-extreme step replaced a High of 9/10 m by the
later High of 13/12 m without re-checking the height gap to the preceding
Low, and the resulting consecutive pair differs by only 1/60 m < 0.1 m, so
the claimed minimum height gap does not hold in the final output. -/
theorem c1_counterexample :
    findExtremes ptsC1 =
      [ { time := 21600000, height := 16/15, type := TideKind.low },
        { time := 115200000, height := 13/12, type := TideKind.high } ] ∧
    ¬ ((1/10 : ℚ) ≤ |(13/12 : ℚ) - 16/15|) := by
  constructor
  · with_unfolding_all rfl
  · rw [show (13/12 : ℚ) - 16/15 = 1/60 by norm_num, abs_of_nonneg (by norm_num)]
    norm_num

/-- Claim C1 (amended): for every input points list, consecutive entries of
the final extrema list of findExtremes are separated by at least 4 hours
(14400000 ms) in time; the corresponding 0.1 m minimum height gap is NOT
guaranteed, because the replace-if-more-extreme step of the merge can
replace the last accepted entry without re-checking the height gap to its
predecessor (see the counterexample). -/
theorem c1_time_gaps (points : List (TidePoint α)) :
    List.Chain' (fun a b : TideExtreme α => a.time + 14400000 ≤ b.time)
      (findExtremes points) :=
  (findExtremes_chain points).imp (fun _ _ h => h.1)

/-- Claim C8: for every points list with fewer than 10 elements, findExtremes
returns the empty extrema list (and, being a total function, raises no
error). -/
theorem c8_few_points_empty (points : List (TidePoint α)) (h : points.length < 10) :
    findExtremes points = [] := by
  unfold findExtremes
  rw [if_pos h]

/-- Witness for C8 at the concrete empty input. -/
theorem c8_few_points_empty_witness :
    ([] : List (TidePoint ℚ)).length < 10 ∧ findExtremes ([] : List (TidePoint ℚ)) = [] :=
  ⟨by decide, c8_few_points_empty [] (by decide)⟩

end MainClaims

section SmoothClaims

variable {α : Type} [LinearOrderedField α]

lemma sum_map_range' (f : ℕ → α) : ∀ (k lo : ℕ),
    ((List.range' lo k).map f).sum = ∑ i in Finset.range k, f (lo + i)
  | 0, _ => by simp
  | (k + 1), lo => by
      rw [List.range'_succ, List.map_cons, List.sum_cons,
        sum_map_range' f k (lo + 1), Finset.sum_range_succ']
      rw [Finset.sum_congr rfl (fun i _ => show f (lo + 1 + i) = f (lo + (i + 1)) by
        congr 1; omega)]
      simp [add_comm]

/-- Claim C7 (counterexample): with windowSize = 4 on a 9-point input, the
smoothed height at index 4 is 12, the mean of the FIVE points [2..6] (the
source uses half width ⌊4/2⌋ = 2 on both sides); yet the mean of every
contiguous width-4 index window containing index 4 is 15, so the produced
value is not "the arithmetic mean of the input heights in a centered window
of width windowSize" for windowSize = 4. -/
theorem c7_counterexample :
    heightAt (smoothData ptsC7 4) 4 = 12 ∧
    timeAt (smoothData ptsC7 4) 4 = 4 ∧
    (heightAt ptsC7 1 + heightAt ptsC7 2 + heightAt ptsC7 3 + heightAt ptsC7 4) / 4 = 15 ∧
    (heightAt ptsC7 2 + heightAt ptsC7 3 + heightAt ptsC7 4 + heightAt ptsC7 5) / 4 = 15 ∧
    (heightAt ptsC7 3 + heightAt ptsC7 4 + heightAt ptsC7 5 + heightAt ptsC7 6) / 4 = 15 ∧
    (heightAt ptsC7 4 + heightAt ptsC7 5 + heightAt ptsC7 6 + heightAt ptsC7 7) / 4 = 15 ∧
    (12 : ℚ) ≠ 15 := by
  refine ⟨?_, ?_, ?_, ?_, ?_, ?_, by norm_num⟩ <;> with_unfolding_all rfl

/-- Claim C7 (amended): for every input and windowSize, smoothData returns a
same-length sequence, leaves every time unchanged, and replaces each height
by the arithmetic mean of the input heights over the boundary-clamped window
of half width ⌊windowSize/2⌋ around the index (a window of width
2*⌊windowSize/2⌋ + 1 away from the boundaries, which equals windowSize
exactly when windowSize is odd). -/
theorem c7_smooth_spec (points : List (TidePoint α)) (windowSize : Nat) :
    (smoothData points windowSize).length = points.length ∧
    ∀ i, i < points.length →
      timeAt (smoothData points windowSize) i = timeAt points i ∧
      heightAt (smoothData points windowSize) i = specMeanHeight points windowSize i := by
  constructor
  · simp [smoothData]
  · intro i hi
    have hget : (smoothData points windowSize)[i]? =
        some ((fun i : ℕ =>
          let start := i - windowSize / 2
          let stop := min (points.length - 1) (i + windowSize / 2)
          let idxs := List.range' start (stop + 1 - start)
          ({ time := timeAt points i,
             height := (idxs.map (fun j => heightAt points j)).sum / (idxs.length : α) } :
            TidePoint α)) i) := by
      rw [smoothData, List.getElem?_map, List.getElem?_range hi, Option.map_some']
    constructor
    · rw [timeAt, hget]
      rfl
    · rw [heightAt, hget]
      simp only [Option.map_some', Option.getD_some, specMeanHeight]
      rw [sum_map_range', List.length_range', ← Nat.Ico_succ_right,
        Finset.sum_Ico_eq_sum_range, Nat.card_Ico]

/-- Witness for C7 (amended) at the concrete 9-point input, windowSize 3,
index 4. -/
theorem c7_smooth_spec_witness :
    (smoothData ptsC7 3).length = ptsC7.length ∧
    ((4 : ℕ) < ptsC7.length ∧
      timeAt (smoothData ptsC7 3) 4 = timeAt ptsC7 4 ∧
      heightAt (smoothData ptsC7 3) 4 = specMeanHeight ptsC7 3 4) :=
  ⟨(c7_smooth_spec ptsC7 3).1,
   by decide,
   ((c7_smooth_spec ptsC7 3).2 4 (by decide)).1,
   ((c7_smooth_spec ptsC7 3).2 4 (by decide)).2⟩

end SmoothClaims

section SynthClaims

lemma heightSum_foldl (hoursElapsed : ℝ) :
    ∀ (cs : List Constituent) (init : ℝ),
      cs.foldl (fun height constituent =>
        if constituent.name = "Z0" then
          height + constituent.amplitude
        else
          height + constituent.amplitude *
            Real.cos ((constituent.speed * hoursElapsed + constituent.phase) *
              (Real.pi / 180))) init =
      init + (cs.map (constituentTerm hoursElapsed)).sum
  | [], init => by simp
  | c :: cs, init => by
      rw [List.foldl_cons, heightSum_foldl hoursElapsed cs, List.map_cons, List.sum_cons]
      unfold constituentTerm
      split_ifs <;> ring

/-- Claim C2 (counterexample): a constituent with speed 0 that is NOT named
"Z0" does not contribute its amplitude: the source keys the constant-offset
branch on the name "Z0", so this constituent named "X" with speed 0,
amplitude 1, phase 180 contributes 1 * cos(180°) = -1, while the claim says
a zero-speed constituent contributes its amplitude 1 regardless of time. -/
theorem c2_counterexample :
    heightSum [{ name := "X", speed := 0, amplitude := 1, phase := 180 }] 0 = -1 ∧
    ({ name := "X", speed := 0, amplitude := 1, phase := 180 } : Constituent).speed = 0 ∧
    ({ name := "X", speed := 0, amplitude := 1, phase := 180 } : Constituent).amplitude = 1 ∧
    (-1 : ℝ) ≠ 1 := by
  refine ⟨?_, rfl, rfl, by norm_num⟩
  unfold heightSum
  rw [heightSum_foldl]
  simp only [List.map_cons, List.map_nil, List.sum_cons, List.sum_nil]
  unfold constituentTerm
  rw [if_neg (by decide)]
  simp only [zero_add, add_zero, zero_mul]
  rw [show (180 : ℝ) * (Real.pi / 180) = Real.pi by field_simp]
  rw [Real.cos_pi]
  norm_num

/-- Claim C2 (amended): for every constituent list, every timestamp and every
noise sample, calculateTideHeight is the sum over the constituents of their
individual contributions plus the noise term, where a constituent NAMED "Z0"
contributes exactly its amplitude regardless of time and speed, and every
other constituent (including zero-speed ones under a different name)
contributes amplitude * cos((speed * hoursElapsed + phase) * π/180) with
hoursElapsed the time since REFERENCE_TIME in hours. -/
theorem c2_contributions (time : Int) (constituents : List Constituent) (rand : ℝ) :
    (calculateTideHeight time constituents rand =
      (constituents.map
        (constituentTerm (((time - REFERENCE_TIME : Int) : ℝ) / (60 * 60 * 1000)))).sum +
        (rand * 0.1 - 0.05)) ∧
    ∀ (hoursElapsed : ℝ) (c : Constituent),
      (c.name = "Z0" → constituentTerm hoursElapsed c = c.amplitude) ∧
      (c.name ≠ "Z0" → constituentTerm hoursElapsed c =
        c.amplitude * Real.cos ((c.speed * hoursElapsed + c.phase) * (Real.pi / 180))) := by
  constructor
  · have h1 : calculateTideHeight time constituents rand =
        heightSum constituents (((time - REFERENCE_TIME : Int) : ℝ) / (60 * 60 * 1000)) +
          (rand * 0.1 - 0.05) := rfl
    rw [h1]
    unfold heightSum
    rw [heightSum_foldl, zero_add]
  · intro hoursElapsed c
    constructor
    · intro h; unfold constituentTerm; rw [if_pos h]
    · intro h; unfold constituentTerm; rw [if_neg h]

/-- Witness for C2 (amended) at a concrete constituent list, time and noise
sample. -/
theorem c2_contributions_witness :
    (calculateTideHeight REFERENCE_TIME [{ name := "Z0", speed := 0, amplitude := 1, phase := 0 }] 0 =
      ([{ name := "Z0", speed := 0, amplitude := 1, phase := 0 }].map
        (constituentTerm (((REFERENCE_TIME - REFERENCE_TIME : Int) : ℝ) / (60 * 60 * 1000)))).sum +
        ((0 : ℝ) * 0.1 - 0.05)) ∧
    constituentTerm 0 { name := "Z0", speed := 0, amplitude := 1, phase := 0 } = 1 :=
  ⟨(c2_contributions REFERENCE_TIME
      [{ name := "Z0", speed := 0, amplitude := 1, phase := 0 }] 0).1,
   ((c2_contributions REFERENCE_TIME
      [{ name := "Z0", speed := 0, amplitude := 1, phase := 0 }] 0).2 0
      { name := "Z0", speed := 0, amplitude := 1, phase := 0 }).1 rfl⟩

end SynthClaims

section DangerClaims

variable {α : Type} [LinearOrderedField α]

lemma hasRapidSwing_iff (l : List (TideExtreme α)) :
    hasRapidSwing l = true ↔
      ∃ (pre : List (TideExtreme α)) (a b : TideExtreme α) (post : List (TideExtreme α)), l = pre ++ a :: b :: post ∧
        (2/5 : α) < |b.height - a.height| ∧ b.time - a.time < 14400000 := by
  induction l with
  | nil =>
      refine iff_of_false (by simp [hasRapidSwing]) ?_
      rintro ⟨pre, a, b, post, heq, -⟩
      exact absurd heq (by simp)
  | cons x l ih =>
      cases l with
      | nil =>
          refine iff_of_false (by simp [hasRapidSwing]) ?_
          rintro ⟨pre, a, b, post, heq, -⟩
          cases pre <;> simp_all
      | cons y rest =>
          rw [hasRapidSwing]
          split_ifs with hP
          · exact iff_of_true rfl ⟨[], x, y, rest, rfl, hP.1, hP.2⟩
          · rw [ih]
            constructor
            · rintro ⟨pre, a, b, post, heq, h1, h2⟩
              exact ⟨x :: pre, a, b, post, by rw [heq]; rfl, h1, h2⟩
            · rintro ⟨pre, a, b, post, heq, h1, h2⟩
              cases pre with
              | nil =>
                  simp only [List.nil_append, List.cons.injEq] at heq
                  obtain ⟨hx, hy, hrest⟩ := heq
                  subst hx; subst hy
                  exact absurd ⟨h1, h2⟩ hP
              | cons p ps =>
                  simp only [List.cons_append, List.cons.injEq] at heq
                  exact ⟨ps, a, b, post, heq.2, h1, h2⟩

/-- Claim C4: for every height and extrema list, isDangerousTide is true iff
height > 0.85 m, or some adjacent pair of the time-ascending sorting of the
extremes differs by more than 0.4 m in height within less than 4 h
(14400000 ms); in particular on the empty extrema list it is true exactly
when height > 0.85 m. -/
theorem c4_dangerous_characterization (h : α) (extremes : List (TideExtreme α)) :
    (isDangerousTide h extremes = true ↔
      ((17/20 : α) < h ∨
        ∃ (pre : List (TideExtreme α)) (a b : TideExtreme α) (post : List (TideExtreme α)), sortByTime extremes = pre ++ a :: b :: post ∧
          (2/5 : α) < |b.height - a.height| ∧ b.time - a.time < 14400000)) ∧
    (isDangerousTide h ([] : List (TideExtreme α)) = true ↔ (17/20 : α) < h) := by
  have hemp : isDangerousTide h ([] : List (TideExtreme α)) = true ↔ (17/20 : α) < h := by
    unfold isDangerousTide
    split_ifs with h1 h2
    · exact iff_of_true rfl h1
    · simp at h2
    · exact iff_of_false (by simp) h1
  refine ⟨?_, hemp⟩
  unfold isDangerousTide
  split_ifs with h1 h2
  · exact iff_of_true rfl (Or.inl h1)
  · rw [hasRapidSwing_iff]
    constructor
    · exact Or.inr
    · rintro (hc | hc)
      · exact absurd hc h1
      · exact hc
  · have hlen : (sortByTime extremes).length = extremes.length :=
      (List.mergeSort_perm extremes _).length_eq
    refine iff_of_false (by simp) ?_
    rintro (hc | ⟨pre, a, b, post, heq, -⟩)
    · exact absurd hc h1
    · have hl := congrArg List.length heq
      rw [hlen] at hl
      simp only [List.length_append, List.length_cons] at hl
      omega

end DangerClaims

section FridayClaims

variable {α : Type} [LinearOrderedField α]

lemma mem_sortByTime (l : List (TideExtreme α)) (e : TideExtreme α) :
    e ∈ sortByTime l ↔ e ∈ l := by
  unfold sortByTime
  exact (List.mergeSort_perm l _).mem_iff

lemma mem_recsFor (tz : Int) (e : TideExtreme α) (r : Recommendation) :
    r ∈ recsFor tz e ↔
      (e.type = TideKind.low ∧ 6 ≤ jsGetHours tz e.time ∧ jsGetHours tz e.time ≤ 18 ∧
        r = { time := e.time,
              reason := "Low tide during daylight hours - ideal for beach activities" }) ∨
      (e.type = TideKind.low ∧ 7 ≤ jsGetHours tz (e.time + 3600000) ∧
        jsGetHours tz (e.time + 3600000) ≤ 17 ∧
        r = { time := e.time + 3600000,
              reason := "Gradually rising tide - good for swimming" }) := by
  unfold recsFor
  split_ifs with hA hB hB <;>
    simp only [List.mem_append, List.mem_singleton, List.not_mem_nil, or_false,
      false_or] <;>
    tauto

/-- Claim C3: a recommendation is produced by getBestFridayVisitTimes exactly
for the Low extremes on a (local-time) Friday whose local hour lies in the
daylight hours 6..18 (at the extreme's own time, with the "ideal for beach
activities" reason), and exactly for the Friday Low extremes (regardless of
their own hour) whose time plus one hour has local hour in 7..17 (at that
derived time, with the "good for swimming" reason); High extremes never
produce any recommendation.  The clock windows [06:00, 18:00] and
[07:00, 17:00] are the hour windows tested by the source via getHours. -/
theorem c3_friday_recommendations (tz : Int) (extremes : List (TideExtreme α))
    (r : Recommendation) :
    (r ∈ getBestFridayVisitTimes tz extremes ↔
      ((∃ e ∈ extremes, e.type = TideKind.low ∧ jsGetDay tz e.time = 5 ∧
          6 ≤ jsGetHours tz e.time ∧ jsGetHours tz e.time ≤ 18 ∧
          r = { time := e.time,
                reason := "Low tide during daylight hours - ideal for beach activities" }) ∨
       (∃ e ∈ extremes, e.type = TideKind.low ∧ jsGetDay tz e.time = 5 ∧
          7 ≤ jsGetHours tz (e.time + 3600000) ∧ jsGetHours tz (e.time + 3600000) ≤ 17 ∧
          r = { time := e.time + 3600000,
                reason := "Gradually rising tide - good for swimming" }))) ∧
    (∀ e : TideExtreme α, e.type = TideKind.high → recsFor tz e = []) := by
  constructor
  · unfold getBestFridayVisitTimes
    rw [List.mem_flatMap]
    constructor
    · rintro ⟨e, he, hr⟩
      have he2 : e ∈ extremes ∧ jsGetDay tz e.time = 5 := by
        have hm := (mem_sortByTime _ e).mp he
        rw [List.mem_filter] at hm
        exact ⟨hm.1, by simpa using hm.2⟩
      rw [mem_recsFor] at hr
      rcases hr with ⟨h1, h2, h3, h4⟩ | ⟨h1, h2, h3, h4⟩
      · exact Or.inl ⟨e, he2.1, h1, he2.2, h2, h3, h4⟩
      · exact Or.inr ⟨e, he2.1, h1, he2.2, h2, h3, h4⟩
    · have hmem : ∀ e : TideExtreme α, e ∈ extremes → jsGetDay tz e.time = 5 →
          e ∈ sortByTime (extremes.filter (fun x => jsGetDay tz x.time == 5)) := by
        intro e he hday
        rw [mem_sortByTime, List.mem_filter]
        exact ⟨he, by simpa using hday⟩
      rintro (⟨e, he, h1, hday, h2, h3, h4⟩ | ⟨e, he, h1, hday, h2, h3, h4⟩)
      · exact ⟨e, hmem e he hday, (mem_recsFor tz e r).mpr (Or.inl ⟨h1, h2, h3, h4⟩)⟩
      · exact ⟨e, hmem e he hday, (mem_recsFor tz e r).mpr (Or.inr ⟨h1, h2, h3, h4⟩)⟩
  · intro e he
    have hnl : ¬ (e.type = TideKind.low) := by
      rw [he]
      intro hc
      cases hc
    unfold recsFor
    rw [if_neg (fun hc => hnl hc.1), if_neg (fun hc => hnl hc.1)]
    rfl

end FridayClaims

section SamplerClaims

lemma samplePoints_times (cs : List Constituent) (noise : Nat → ℝ) (r : Int)
    (h0 : 0 ≤ r) (h1 : r < 1800000) :
    ∀ (n : Nat) (t : Int) (k : Nat),
      (samplePoints t (t + (n : Int) * 1800000 + r) cs noise k).map (fun p => p.time) =
        (List.range (n + 1)).map (fun i : Nat => t + (i : Int) * 1800000) := by
  intro n
  induction n with
  | zero =>
      intro t k
      rw [samplePoints, if_pos (by push_cast; omega), samplePoints,
        if_neg (by push_cast; omega)]
      simp [List.range_succ]
  | succ n ih =>
      intro t k
      rw [samplePoints, if_pos (by push_cast; omega)]
      have hend : t + ((n + 1 : Nat) : Int) * 1800000 + r =
          (t + 1800000) + (n : Int) * 1800000 + r := by push_cast; ring
      have hr : (List.range (n + 1 + 1)).map (fun i : Nat => t + (i : Int) * 1800000) =
          t :: (List.range (n + 1)).map
            (fun i : Nat => (t + 1800000) + (i : Int) * 1800000) := by
        rw [List.range_succ_eq_map, List.map_cons, List.map_map]
        congr 1
        · simp
        · exact List.map_congr_left (fun a _ => by
            simp only [Function.comp_apply]
            push_cast
            ring)
      rw [hend, List.map_cons, ih (t + 1800000) (k + 1), hr]

/-- Claim C6: for every non-negative days, the points of getTideData have
times startTime + i * 1800000 for i = 0 .. 48*days, strictly increasing,
starting exactly at startTime and ending exactly at
startTime + days * 86400000; for days = 7 there are exactly 337 points. -/
theorem c6_sampling_grid (location : LocationConfig) (days : Int)
    (constituents : Option (List Constituent)) (startTime : Int) (noise : Nat → ℝ)
    (hdays : 0 ≤ days) :
    ((getTideData location days constituents startTime noise).points.map (fun p => p.time) =
      (List.range (48 * days.toNat + 1)).map (fun i : Nat => startTime + (i : Int) * 1800000)) ∧
    ((getTideData location days constituents startTime noise).points.map
      (fun p => p.time)).Pairwise (fun a b => a < b) ∧
    ((getTideData location days constituents startTime noise).points.map
      (fun p => p.time)).head? = some startTime ∧
    ((getTideData location days constituents startTime noise).points.map
      (fun p => p.time)).getLast? = some (startTime + days * 86400000) ∧
    (days = 7 → (getTideData location days constituents startTime noise).points.length = 337) := by
  have hpts : (getTideData location days constituents startTime noise).points =
      samplePoints startTime (startTime + days * 86400000)
        (constituents.getD getDefaultConstituents) noise 0 := rfl
  have hrw : startTime + days * 86400000 =
      startTime + ((48 * days.toNat : Nat) : Int) * 1800000 + 0 := by
    push_cast
    omega
  have htimes : (getTideData location days constituents startTime noise).points.map
      (fun p => p.time) =
      (List.range (48 * days.toNat + 1)).map (fun i : Nat => startTime + (i : Int) * 1800000) := by
    rw [hpts, hrw, samplePoints_times _ noise 0 le_rfl (by norm_num)]
  refine ⟨htimes, ?_, ?_, ?_, ?_⟩
  · rw [htimes, List.pairwise_map]
    exact (List.pairwise_lt_range _).imp (fun hab => by omega)
  · rw [htimes, List.range_succ_eq_map, List.map_cons]
    simp
  · rw [htimes, List.range_succ, List.map_append, List.map_singleton,
      List.getLast?_concat]
    simp only [Option.some.injEq]
    omega
  · intro h7
    have hlen : (getTideData location days constituents startTime noise).points.length =
        ((getTideData location days constituents startTime noise).points.map
          (fun p => p.time)).length := (List.length_map _ _).symm
    rw [hlen, htimes, List.length_map, List.length_range]
    subst h7
    rfl

/-- Witness for C6 at days = 7, startTime 0, constant-zero noise. -/
theorem c6_sampling_grid_witness :
    (0 : Int) ≤ 7 ∧
    ((getTideData someLocation 7 none 0 (fun _ => 0)).points.map
      (fun p => p.time)).head? = some 0 ∧
    (getTideData someLocation 7 none 0 (fun _ => 0)).points.length = 337 :=
  ⟨by decide,
   (c6_sampling_grid someLocation 7 none 0 (fun _ => 0) (by decide)).2.2.1,
   (c6_sampling_grid someLocation 7 none 0 (fun _ => 0) (by decide)).2.2.2.2 rfl⟩

end SamplerClaims

section DegenerateClaims

/-- Claim C9: getTideData with days = 0 returns exactly one point, at the
start time, with an empty extrema list; with any negative days it returns an
empty points list and an empty extrema list (both are total computations,
no error is raised). -/
theorem c9_degenerate_days (location : LocationConfig)
    (constituents : Option (List Constituent)) (startTime : Int) (noise : Nat → ℝ) :
    ((getTideData location 0 constituents startTime noise).points.map (fun p => p.time) =
        [startTime] ∧
      (getTideData location 0 constituents startTime noise).extremes = []) ∧
    (∀ days : Int, days < 0 →
      (getTideData location days constituents startTime noise).points = [] ∧
      (getTideData location days constituents startTime noise).extremes = []) := by
  constructor
  · have h1 : samplePoints startTime (startTime + 0 * 86400000)
        (constituents.getD getDefaultConstituents) noise 0 =
        [{ time := startTime,
           height := calculateTideHeight startTime
             (constituents.getD getDefaultConstituents) (noise 0) }] := by
      rw [samplePoints, if_pos (by omega), samplePoints, if_neg (by omega)]
    have hpts : (getTideData location 0 constituents startTime noise).points =
        samplePoints startTime (startTime + 0 * 86400000)
          (constituents.getD getDefaultConstituents) noise 0 := rfl
    have hext : (getTideData location 0 constituents startTime noise).extremes =
        findExtremes (samplePoints startTime (startTime + 0 * 86400000)
          (constituents.getD getDefaultConstituents) noise 0) := rfl
    constructor
    · rw [hpts, h1]
      rfl
    · rw [hext, h1]
      unfold findExtremes
      rw [if_pos (by simp)]
  · intro days hneg
    have h1 : samplePoints startTime (startTime + days * 86400000)
        (constituents.getD getDefaultConstituents) noise 0 = [] := by
      rw [samplePoints, if_neg (by omega)]
    have hpts : (getTideData location days constituents startTime noise).points =
        samplePoints startTime (startTime + days * 86400000)
          (constituents.getD getDefaultConstituents) noise 0 := rfl
    have hext : (getTideData location days constituents startTime noise).extremes =
        findExtremes (samplePoints startTime (startTime + days * 86400000)
          (constituents.getD getDefaultConstituents) noise 0) := rfl
    constructor
    · rw [hpts, h1]
    · rw [hext, h1]
      unfold findExtremes
      rw [if_pos (by simp)]

/-- Witness for C9 at days = -1 and days = 0 with concrete inputs. -/
theorem c9_degenerate_days_witness :
    ((getTideData someLocation 0 none 0 (fun _ => 0)).points.map (fun p => p.time) = [0] ∧
      (getTideData someLocation 0 none 0 (fun _ => 0)).extremes = []) ∧
    ((getTideData someLocation (-1) none 0 (fun _ => 0)).points = [] ∧
      (getTideData someLocation (-1) none 0 (fun _ => 0)).extremes = []) :=
  ⟨(c9_degenerate_days someLocation none 0 (fun _ => 0)).1,
   (c9_degenerate_days someLocation none 0 (fun _ => 0)).2 (-1) (by decide)⟩

/-- Claim C10: for every two location descriptors and the same days,
constituents, start time and noise stream, getTideData produces identical
points and identical extremes: the location input never influences the
numerical output. -/
theorem c10_location_invariance (loc1 loc2 : LocationConfig) (days : Int)
    (constituents : Option (List Constituent)) (startTime : Int) (noise : Nat → ℝ) :
    getTideData loc1 days constituents startTime noise =
      getTideData loc2 days constituents startTime noise := rfl

end DegenerateClaims
